import Mathlib

/-!
Shallow embedding of `src/app/lib/actions.ts` (a Next.js server-actions file
with two versions separated in the source: a permissive one using
`CreateInvoice.parse` / `UpdateInvoice.parse`, which throws on invalid input,
and a strict one using `safeParse`, which returns a structured error state).

Modelling conventions:
- `formData.get(k)` returns `string | null`; we model a form as three
  `Option String` fields (the `File` case of `FormDataEntryValue` is out of
  scope, no caller ever submits one here).
- JavaScript numeric coercion `Number(x)` (used by `z.coerce.number()`) is
  modelled over exact rationals, restricted to optionally signed decimal
  literals with optional surrounding whitespace; exponent, hexadecimal and
  Infinity forms are not modelled and map to NaN (`none`). Binary
  floating-point rounding of IEEE doubles is not modelled: arithmetic such as
  `amount * 100` is exact here.
- Effects (SQL statements sent, cache revalidations) are recorded in an
  ordered trace; `redirect(path)` is a non-local exit and is modelled as a
  distinct terminal outcome, never as a catchable value, mirroring the code
  comment that `redirect()` works by throwing and is therefore called outside
  the try/catch block.
- Whether the single SQL statement of a handler raises is an input
  (`dbFails`); the store semantics of the three statements is given by
  `applyStmt`.
-/

/-- Numeric value of a list of decimal digit characters, most significant
first, as in JavaScript decimal-literal parsing. -/
def digitsToNat (l : List Char) : Nat :=
  l.foldl (fun n c => n * 10 + (c.toNat - 48)) 0

/-- Parse an unsigned decimal literal (digits, optionally one dot, at least
one digit overall) into an exact rational; `none` is NaN. -/
def parseUnsigned (l : List Char) : Option ℚ :=
  let intDigits := l.takeWhile Char.isDigit
  match l.dropWhile Char.isDigit with
  | [] =>
      if intDigits.isEmpty then none else some (digitsToNat intDigits)
  | c :: fracDigits =>
      if c = '.' then
        if fracDigits.all Char.isDigit then
          if intDigits.isEmpty ∧ fracDigits.isEmpty then none
          else some ((digitsToNat intDigits : ℚ) +
            (digitsToNat fracDigits : ℚ) / (10 : ℚ) ^ fracDigits.length)
        else none
      else none

/-- Model of JavaScript `Number(s)` for a string input: whitespace is
trimmed, the empty string is 0, otherwise an optionally signed decimal
literal; `none` is NaN. -/
def jsStrToNumber (s : String) : Option ℚ :=
  let l := ((s.toList.dropWhile Char.isWhitespace).reverse.dropWhile
    Char.isWhitespace).reverse
  match l with
  | [] => some 0
  | '-' :: rest => (parseUnsigned rest).map (fun q => -q)
  | '+' :: rest => parseUnsigned rest
  | _ => parseUnsigned l

/-- Model of JavaScript `Number(x)` for `x : string | null`:
`Number(null) = 0`. -/
def jsNumber : Option String → Option ℚ
  | none => some 0
  | some s => jsStrToNumber s

/-- Model of the JavaScript expression `isoTimestamp.split("T")[0]` applied
to the result of `new Date().toISOString()`: the prefix of the string before
the first `T` character. -/
def dateOnly (isoTimestamp : String) : String :=
  String.mk (isoTimestamp.toList.takeWhile (fun c => c != 'T'))

/-- The invoice status enum `z.enum(["pending", "paid"])`. -/
inductive Status where
  | pending
  | paid
deriving DecidableEq, Repr

/-- SQL text value of a status, as interpolated into the tagged template. -/
def Status.toStr : Status → String
  | .pending => "pending"
  | .paid => "paid"

/-- A raw submitted form: the three `formData.get(...)` results read by the
handlers (`string | null` each). -/
structure RawForm where
  customerId : Option String
  amount : Option String
  status : Option String
deriving DecidableEq, Repr

/-- The typed record produced by a successful parse of the create/update
schema (`FormSchema.omit({id, date})`). -/
structure ParsedForm where
  customerId : String
  amount : ℚ
  status : Status
deriving DecidableEq, Repr

/-- The per-field error mapping `validatedFields.error.flatten().fieldErrors`;
a field absent from the mapping is `none`. -/
structure FieldErrors where
  customerId : Option (List String) := none
  amount : Option (List String) := none
  status : Option (List String) := none
deriving DecidableEq, Repr

/-- The `State` type of the strict version: `{ errors?, message? }`. -/
structure State where
  errors : Option FieldErrors := none
  message : Option String := none
deriving DecidableEq, Repr

/-- Strict field check for `customerId : z.string({ invalid_type_error:
"Please select a customer." })`: `null` is an invalid type; every string,
including the empty string, passes. -/
def checkCustomerId : Option String → Except (List String) String
  | none => .error ["Please select a customer."]
  | some s => .ok s

/-- Strict field check for `amount : z.coerce.number().gt(0, { message:
"Please enter an amount greater than $0." })`: coercion failure (NaN) yields
the zod default invalid-type message, then the value must be strictly
positive. -/
def checkAmount (v : Option String) : Except (List String) ℚ :=
  match jsNumber v with
  | none => .error ["Expected number, received nan"]
  | some q => if 0 < q then .ok q
      else .error ["Please enter an amount greater than $0."]

/-- Strict field check for `status : z.enum(["pending", "paid"],
{ invalid_type_error: "Please select an invoice status." })`: `null` is an
invalid type; a string outside the enum yields the zod default
invalid-enum-value message (quote marks of the original text elided). -/
def checkStatus : Option String → Except (List String) Status
  | none => .error ["Please select an invoice status."]
  | some s =>
      if s = "pending" then .ok Status.pending
      else if s = "paid" then .ok Status.paid
      else .error ["Invalid enum value. Expected pending | paid, received " ++ s]

/-- Error component of a field check, as collected by
`error.flatten().fieldErrors` (a passing field is absent). -/
def errOf {α : Type} : Except (List String) α → Option (List String)
  | .ok _ => none
  | .error e => some e

/-- Model of `CreateInvoice.safeParse` = `UpdateInvoice.safeParse` of the
strict version (the two schemas are identical: `FormSchema.omit({id, date})`):
either a typed record or the collected per-field errors. -/
def strictSafeParse (fd : RawForm) : Except FieldErrors ParsedForm :=
  match checkCustomerId fd.customerId, checkAmount fd.amount,
      checkStatus fd.status with
  | .ok c, .ok a, .ok s => .ok ⟨c, a, s⟩
  | rc, ra, rs => .error ⟨errOf rc, errOf ra, errOf rs⟩

/-- Model of `CreateInvoice.parse` = `UpdateInvoice.parse` of the permissive
version: the same schema but with no `.gt(0)` bound on amount and no custom
messages; a failure is a thrown ZodError, abstracted to `Unit`. -/
def permissiveParse (fd : RawForm) : Except Unit ParsedForm :=
  match fd.customerId, jsNumber fd.amount, fd.status with
  | some c, some a, some s =>
      if s = "pending" then .ok ⟨c, a, Status.pending⟩
      else if s = "paid" then .ok ⟨c, a, Status.paid⟩
      else .error ()
  | _, _, _ => .error ()

/-- The three parameterized SQL statements of the file, with their
interpolated values in source order. -/
inductive SqlStmt where
  | insertRow (customerId : String) (amount : ℚ) (status : String)
      (date : String)
  | updateRow (customerId : String) (amount : ℚ) (status : String)
      (id : String)
  | deleteRow (id : String)
deriving DecidableEq, Repr

/-- One observable effect of a handler run, in program order: an SQL
statement sent to the database (`ok` records whether it completed without
raising) or a `revalidatePath` call. -/
inductive Event where
  | sql (stmt : SqlStmt) (ok : Bool)
  | revalidate (path : String)
deriving DecidableEq, Repr

/-- Uncaught exceptions a handler can terminate with. -/
inductive JsError where
  | parseFailure
  | dbError
deriving DecidableEq, Repr

/-- Terminal outcome of a handler run: a normal return, a `redirect(path)`
non-local exit, or an uncaught exception. -/
inductive Outcome (α : Type) where
  | ok (a : α)
  | redirected (path : String)
  | threw (e : JsError)
deriving DecidableEq, Repr

/-- A handler run: its terminal outcome together with the ordered trace of
effects it performed. -/
structure Run (α : Type) where
  outcome : Outcome α
  trace : List Event
deriving DecidableEq, Repr

/-- SQL statements sent to the database during a trace, in order. -/
def sqlSent (t : List Event) : List SqlStmt :=
  t.filterMap (fun e => match e with
    | .sql s _ => some s
    | _ => none)

/-- SQL statements that completed successfully during a trace, in order. -/
def sqlApplied (t : List Event) : List SqlStmt :=
  t.filterMap (fun e => match e with
    | .sql s true => some s
    | _ => none)

/-- Paths passed to `revalidatePath` during a trace, in order. -/
def revalidations (t : List Event) : List String :=
  t.filterMap (fun e => match e with
    | .revalidate p => some p
    | _ => none)

/-- A row of the `invoices` table (columns touched by this code plus the key
column `id`). -/
structure Row where
  id : String
  customer_id : String
  amount : ℚ
  status : String
  date : String
deriving DecidableEq, Repr

/-- The `invoices` table. -/
abbrev Store : Type := List Row

/-- Relational semantics of the three statements. INSERT appends a row whose
id the database generates (id generation is not part of this code; the
placeholder value is irrelevant to every property below). UPDATE sets
customer_id, amount and status on each row matching the key. DELETE removes
the rows matching the key. -/
def applyStmt (st : Store) : SqlStmt → Store
  | .insertRow c a s d => st ++ [⟨"", c, a, s, d⟩]
  | .updateRow c a s i => st.map (fun r =>
      if r.id = i then { r with customer_id := c, amount := a, status := s }
      else r)
  | .deleteRow i => st.filter (fun r => r.id != i)

/-- Database state after a run: the successfully completed statements of the
trace applied in order. -/
def finalStore (t : List Event) (st : Store) : Store :=
  (sqlApplied t).foldl applyStmt st

namespace Strict

/-- Strict `createInvoice(prevState, formData)`. `dbFails` says whether the
INSERT raises; `now` is the value of `new Date().toISOString()`. On
validation failure it returns the field errors with a summary message and
performs nothing; on a database error the catch block returns the generic
message; on success it revalidates the listing route and redirects (the
redirect is outside the try/catch). -/
def createInvoice (_prevState : State) (fd : RawForm) (dbFails : Bool)
    (now : String) : Run State :=
  match strictSafeParse fd with
  | .error fe =>
      { outcome := .ok ⟨some fe, some "Missing fields. Failed to create invoice."⟩,
        trace := [] }
  | .ok p =>
      let amountInCents := p.amount * 100
      let date := dateOnly now
      let stmt := SqlStmt.insertRow p.customerId amountInCents p.status.toStr date
      if dbFails then
        { outcome := .ok ⟨none, some "Database Error: Failed to create invoice."⟩,
          trace := [.sql stmt false] }
      else
        { outcome := .redirected "/dashboard/invoices",
          trace := [.sql stmt true, .revalidate "/dashboard/invoices"] }

/-- Strict `updateInvoice(id, prevState, formData)`: same pipeline as create
minus the date stamping; the UPDATE is keyed by `id`. -/
def updateInvoice (id : String) (_prevState : State) (fd : RawForm)
    (dbFails : Bool) : Run State :=
  match strictSafeParse fd with
  | .error fe =>
      { outcome := .ok ⟨some fe, some "Missing fields. Failed to update invoice."⟩,
        trace := [] }
  | .ok p =>
      let amountInCents := p.amount * 100
      let stmt := SqlStmt.updateRow p.customerId amountInCents p.status.toStr id
      if dbFails then
        { outcome := .ok ⟨none, some "Database Error: Failed to Update Invoice."⟩,
          trace := [.sql stmt false] }
      else
        { outcome := .redirected "/dashboard/invoices",
          trace := [.sql stmt true, .revalidate "/dashboard/invoices"] }

end Strict

namespace Permissive

/-- Permissive `createInvoice(formData)`: `parse` throws on invalid input;
there is no try/catch, so a database error also propagates uncaught. -/
def createInvoice (fd : RawForm) (dbFails : Bool) (now : String) : Run Unit :=
  match permissiveParse fd with
  | .error _ => { outcome := .threw .parseFailure, trace := [] }
  | .ok p =>
      let amountInCents := p.amount * 100
      let date := dateOnly now
      let stmt := SqlStmt.insertRow p.customerId amountInCents p.status.toStr date
      if dbFails then
        { outcome := .threw .dbError, trace := [.sql stmt false] }
      else
        { outcome := .redirected "/dashboard/invoices",
          trace := [.sql stmt true, .revalidate "/dashboard/invoices"] }

/-- Permissive `updateInvoice(id, formData)`: as create, minus the date,
with an UPDATE keyed by `id`. -/
def updateInvoice (id : String) (fd : RawForm) (dbFails : Bool) : Run Unit :=
  match permissiveParse fd with
  | .error _ => { outcome := .threw .parseFailure, trace := [] }
  | .ok p =>
      let amountInCents := p.amount * 100
      let stmt := SqlStmt.updateRow p.customerId amountInCents p.status.toStr id
      if dbFails then
        { outcome := .threw .dbError, trace := [.sql stmt false] }
      else
        { outcome := .redirected "/dashboard/invoices",
          trace := [.sql stmt true, .revalidate "/dashboard/invoices"] }

end Permissive

/-- `deleteInvoice(id)`, textually identical in both versions: DELETE keyed
by id, then revalidate the listing route; no validation, no try/catch, so a
database error propagates uncaught before any revalidation. -/
def deleteInvoice (id : String) (dbFails : Bool) : Run Unit :=
  if dbFails then
    { outcome := .threw .dbError, trace := [.sql (.deleteRow id) false] }
  else
    { outcome := .ok (),
      trace := [.sql (.deleteRow id) true, .revalidate "/dashboard/invoices"] }

/-- Amount-field error messages of a normally returned strict result, if
any. -/
def returnedAmountErrors (r : Run State) : Option (List String) :=
  match r.outcome with
  | .ok s => match s.errors with
    | some fe => fe.amount
    | none => none
  | _ => none

/-- CustomerId-field error messages of a normally returned strict result, if
any. -/
def returnedCustomerIdErrors (r : Run State) : Option (List String) :=
  match r.outcome with
  | .ok s => match s.errors with
    | some fe => fe.customerId
    | none => none
  | _ => none

/-- The amount field fails strict validation: it is non-numeric (NaN after
coercion) or coerces to a value that is not strictly positive. -/
def badAmount (v : Option String) : Bool :=
  match jsNumber v with
  | none => true
  | some q => decide (q ≤ 0)

/-- The statement is an UPDATE keyed by the given id. -/
def isUpdateKeyed (id : String) : SqlStmt → Bool
  | .updateRow _ _ _ i => i = id
  | _ => false

/-! Theorems: one per claim, with counterexamples for the corrected claims
and witnesses for theorems carrying hypotheses. Shared helper lemmas come
first. -/

/-- A failing amount check produces an explicit message list. -/
theorem checkAmount_error_of_badAmount (v : Option String)
    (h : badAmount v = true) : ∃ msgs, checkAmount v = .error msgs := by
  unfold badAmount at h
  unfold checkAmount
  cases hj : jsNumber v with
  | none => exact ⟨_, rfl⟩
  | some q =>
    rw [hj] at h
    simp only [decide_eq_true_eq] at h
    exact ⟨["Please enter an amount greater than $0."], by simp [not_lt.mpr h]⟩

/-- C1, counterexample: the claim says the persisted amount equals
round(amount × 100) for every valid input, but the code multiplies by 100
with no rounding. For the valid input (customerId "c1", amount "0.005",
status "pending") the INSERT carries amount 1/2, which differs from
round((1/200) × 100) = 1 (indeed it is not an integer at all). -/
theorem createInvoice_no_rounding_counterexample :
    sqlApplied (Strict.createInvoice ⟨none, none⟩
        ⟨some "c1", some "0.005", some "pending"⟩ false
        "2026-10-11T00:00:00.000Z").trace
      = [SqlStmt.insertRow "c1" (1/2) "pending" "2026-10-11"]
    ∧ ((1 : ℚ)/2) ≠ ((round ((1/200 : ℚ) * 100) : ℤ) : ℚ) := by
  constructor
  · simp +decide [Strict.createInvoice, strictSafeParse, checkCustomerId,
      checkAmount, checkStatus, jsNumber, jsStrToNumber, parseUnsigned,
      digitsToNat, dateOnly, sqlApplied]
    norm_num
  · norm_num [round_eq]

/-- C1, amended: for every valid input the strict createInvoice persists
exactly one INSERT carrying the parsed customerId, the amount multiplied by
100 with no rounding applied, the status, and as the date the calendar-date
part of the server ISO timestamp (the prefix before T, so no time
component); in particular, for the input amount string "49.99" the persisted
amount is exactly 4999 under the exact-rational coercion model. -/
theorem createInvoice_persists_exact_cents (prev : State) (fd : RawForm)
    (now : String) (p : ParsedForm) (h : strictSafeParse fd = .ok p) :
    sqlApplied (Strict.createInvoice prev fd false now).trace
      = [SqlStmt.insertRow p.customerId (p.amount * 100) p.status.toStr
          (dateOnly now)]
    ∧ sqlApplied (Strict.createInvoice ⟨none, none⟩
        ⟨some "c1", some "49.99", some "pending"⟩ false
        "2026-10-11T08:30:00.000Z").trace
      = [SqlStmt.insertRow "c1" 4999 "pending" "2026-10-11"] := by
  constructor
  · simp [Strict.createInvoice, h, sqlApplied]
  · simp +decide [Strict.createInvoice, strictSafeParse, checkCustomerId,
      checkAmount, checkStatus, jsNumber, jsStrToNumber, parseUnsigned,
      digitsToNat, dateOnly, sqlApplied, Status.toStr]
    norm_num [sqlApplied, List.filterMap_cons, Status.toStr]

/-- C1, witness: the amended theorem applied to the concrete valid input
(customerId "c1", amount "49.99", status "pending"). -/
theorem createInvoice_persists_exact_cents_witness :
    strictSafeParse ⟨some "c1", some "49.99", some "pending"⟩
      = .ok ⟨"c1", 4999/100, .pending⟩
    ∧ (sqlApplied (Strict.createInvoice ⟨none, none⟩
          ⟨some "c1", some "49.99", some "pending"⟩ false
          "2026-10-11T08:30:00.000Z").trace
        = [SqlStmt.insertRow "c1" ((4999/100 : ℚ) * 100) "pending"
            (dateOnly "2026-10-11T08:30:00.000Z")]
      ∧ sqlApplied (Strict.createInvoice ⟨none, none⟩
          ⟨some "c1", some "49.99", some "pending"⟩ false
          "2026-10-11T08:30:00.000Z").trace
        = [SqlStmt.insertRow "c1" 4999 "pending" "2026-10-11"]) :=
  have h : strictSafeParse ⟨some "c1", some "49.99", some "pending"⟩
      = .ok ⟨"c1", 4999/100, .pending⟩ := by
    simp +decide [strictSafeParse, checkCustomerId, checkAmount, checkStatus,
      jsNumber, jsStrToNumber, parseUnsigned, digitsToNat]
    norm_num
  ⟨h, createInvoice_persists_exact_cents ⟨none, none⟩
    ⟨some "c1", some "49.99", some "pending"⟩ "2026-10-11T08:30:00.000Z"
    ⟨"c1", 4999/100, .pending⟩ h⟩

/-- C2: when the SQL statement of the strict createInvoice or updateInvoice
raises, the handler returns a result carrying only the generic message (the
errors field is absent), performs no cache revalidation, does not redirect,
and the store is unchanged. -/
theorem dbError_returns_generic_message_only (fd : RawForm) (p : ParsedForm)
    (prev : State) (now id : String) (st : Store)
    (hc : strictSafeParse fd = .ok p) :
    (Strict.createInvoice prev fd true now).outcome
      = .ok ⟨none, some "Database Error: Failed to create invoice."⟩
    ∧ revalidations (Strict.createInvoice prev fd true now).trace = []
    ∧ finalStore (Strict.createInvoice prev fd true now).trace st = st
    ∧ (Strict.updateInvoice id prev fd true).outcome
      = .ok ⟨none, some "Database Error: Failed to Update Invoice."⟩
    ∧ revalidations (Strict.updateInvoice id prev fd true).trace = []
    ∧ finalStore (Strict.updateInvoice id prev fd true).trace st = st := by
  simp [Strict.createInvoice, Strict.updateInvoice, hc, revalidations,
    finalStore, sqlApplied]

/-- C2, witness: the theorem applied to the concrete valid input
(customerId "c1", amount "10", status "paid") and the empty store. -/
theorem dbError_returns_generic_message_only_witness :
    strictSafeParse ⟨some "c1", some "10", some "paid"⟩ = .ok ⟨"c1", 10, .paid⟩
    ∧ ((Strict.createInvoice ⟨none, none⟩ ⟨some "c1", some "10", some "paid"⟩
          true "2026-10-11T08:30:00.000Z").outcome
        = .ok ⟨none, some "Database Error: Failed to create invoice."⟩
      ∧ revalidations (Strict.createInvoice ⟨none, none⟩
          ⟨some "c1", some "10", some "paid"⟩ true
          "2026-10-11T08:30:00.000Z").trace = []
      ∧ finalStore (Strict.createInvoice ⟨none, none⟩
          ⟨some "c1", some "10", some "paid"⟩ true
          "2026-10-11T08:30:00.000Z").trace [] = []
      ∧ (Strict.updateInvoice "inv1" ⟨none, none⟩
          ⟨some "c1", some "10", some "paid"⟩ true).outcome
        = .ok ⟨none, some "Database Error: Failed to Update Invoice."⟩
      ∧ revalidations (Strict.updateInvoice "inv1" ⟨none, none⟩
          ⟨some "c1", some "10", some "paid"⟩ true).trace = []
      ∧ finalStore (Strict.updateInvoice "inv1" ⟨none, none⟩
          ⟨some "c1", some "10", some "paid"⟩ true).trace [] = []) :=
  have h : strictSafeParse ⟨some "c1", some "10", some "paid"⟩
      = .ok ⟨"c1", 10, .paid⟩ := by
    simp +decide [strictSafeParse, checkCustomerId, checkAmount, checkStatus,
      jsNumber, jsStrToNumber, parseUnsigned, digitsToNat]
  ⟨h, dbError_returns_generic_message_only
    ⟨some "c1", some "10", some "paid"⟩ ⟨"c1", 10, .paid⟩ ⟨none, none⟩
    "2026-10-11T08:30:00.000Z" "inv1" [] h⟩

/-- C3: when the amount field is non-numeric or coerces to a value that is
not strictly positive, the strict createInvoice and updateInvoice return a
result whose errors mapping carries a message for the amount field, and send
no SQL statement, whatever the database would have done. -/
theorem invalid_amount_reports_error_and_no_sql (fd : RawForm) (prev : State)
    (now id : String) (dbF : Bool) (h : badAmount fd.amount = true) :
    returnedAmountErrors (Strict.createInvoice prev fd dbF now) ≠ none
    ∧ sqlSent (Strict.createInvoice prev fd dbF now).trace = []
    ∧ returnedAmountErrors (Strict.updateInvoice id prev fd dbF) ≠ none
    ∧ sqlSent (Strict.updateInvoice id prev fd dbF).trace = [] := by
  obtain ⟨msgs, hA⟩ := checkAmount_error_of_badAmount fd.amount h
  cases hc : checkCustomerId fd.customerId <;>
    cases hs : checkStatus fd.status <;>
      simp [Strict.createInvoice, Strict.updateInvoice, strictSafeParse,
        hc, hs, hA, errOf, returnedAmountErrors, sqlSent]

/-- C3, witness: the theorem applied to the non-numeric amount "abc" (with
customerId and status valid, isolating the amount failure). -/
theorem invalid_amount_reports_error_and_no_sql_witness :
    badAmount (RawForm.mk (some "c1") (some "abc") (some "pending")).amount = true
    ∧ (returnedAmountErrors (Strict.createInvoice ⟨none, none⟩
          ⟨some "c1", some "abc", some "pending"⟩ false
          "2026-10-11T08:30:00.000Z") ≠ none
      ∧ sqlSent (Strict.createInvoice ⟨none, none⟩
          ⟨some "c1", some "abc", some "pending"⟩ false
          "2026-10-11T08:30:00.000Z").trace = []
      ∧ returnedAmountErrors (Strict.updateInvoice "inv1" ⟨none, none⟩
          ⟨some "c1", some "abc", some "pending"⟩ false) ≠ none
      ∧ sqlSent (Strict.updateInvoice "inv1" ⟨none, none⟩
          ⟨some "c1", some "abc", some "pending"⟩ false).trace = []) :=
  ⟨by decide, invalid_amount_reports_error_and_no_sql
    ⟨some "c1", some "abc", some "pending"⟩ ⟨none, none⟩
    "2026-10-11T08:30:00.000Z" "inv1" false (by decide)⟩

/-- C4: after a successful parse, the success run of the strict createInvoice
and updateInvoice performs exactly the successful SQL write followed by the
revalidation of the listing route, in that order, and terminates in the
redirect; when the write raises instead, the catch block returns the generic
message and neither revalidation nor redirect occurs, so the persistence
error recovery never intercepts the navigation signal. -/
theorem success_orders_sql_revalidate_redirect (fd : RawForm) (p : ParsedForm)
    (prev : State) (now id : String) (h : strictSafeParse fd = .ok p) :
    (Strict.createInvoice prev fd false now).trace
      = [.sql (.insertRow p.customerId (p.amount * 100) p.status.toStr
          (dateOnly now)) true, .revalidate "/dashboard/invoices"]
    ∧ (Strict.createInvoice prev fd false now).outcome
      = .redirected "/dashboard/invoices"
    ∧ (Strict.createInvoice prev fd true now).outcome
      = .ok ⟨none, some "Database Error: Failed to create invoice."⟩
    ∧ revalidations (Strict.createInvoice prev fd true now).trace = []
    ∧ (Strict.updateInvoice id prev fd false).trace
      = [.sql (.updateRow p.customerId (p.amount * 100) p.status.toStr id)
          true, .revalidate "/dashboard/invoices"]
    ∧ (Strict.updateInvoice id prev fd false).outcome
      = .redirected "/dashboard/invoices"
    ∧ (Strict.updateInvoice id prev fd true).outcome
      = .ok ⟨none, some "Database Error: Failed to Update Invoice."⟩
    ∧ revalidations (Strict.updateInvoice id prev fd true).trace = [] := by
  simp [Strict.createInvoice, Strict.updateInvoice, h, revalidations]

/-- C4, witness: the theorem applied to the concrete valid input
(customerId "c1", amount "10", status "paid"). -/
theorem success_orders_sql_revalidate_redirect_witness :
    strictSafeParse ⟨some "c1", some "10", some "paid"⟩ = .ok ⟨"c1", 10, .paid⟩
    ∧ ((Strict.createInvoice ⟨none, none⟩ ⟨some "c1", some "10", some "paid"⟩
          false "2026-10-11T08:30:00.000Z").trace
        = [.sql (.insertRow "c1" ((10 : ℚ) * 100) (Status.paid).toStr
            (dateOnly "2026-10-11T08:30:00.000Z")) true,
           .revalidate "/dashboard/invoices"]
      ∧ (Strict.createInvoice ⟨none, none⟩ ⟨some "c1", some "10", some "paid"⟩
          false "2026-10-11T08:30:00.000Z").outcome
        = .redirected "/dashboard/invoices"
      ∧ (Strict.createInvoice ⟨none, none⟩ ⟨some "c1", some "10", some "paid"⟩
          true "2026-10-11T08:30:00.000Z").outcome
        = .ok ⟨none, some "Database Error: Failed to create invoice."⟩
      ∧ revalidations (Strict.createInvoice ⟨none, none⟩
          ⟨some "c1", some "10", some "paid"⟩ true
          "2026-10-11T08:30:00.000Z").trace = []
      ∧ (Strict.updateInvoice "inv1" ⟨none, none⟩
          ⟨some "c1", some "10", some "paid"⟩ false).trace
        = [.sql (.updateRow "c1" ((10 : ℚ) * 100) (Status.paid).toStr "inv1")
            true, .revalidate "/dashboard/invoices"]
      ∧ (Strict.updateInvoice "inv1" ⟨none, none⟩
          ⟨some "c1", some "10", some "paid"⟩ false).outcome
        = .redirected "/dashboard/invoices"
      ∧ (Strict.updateInvoice "inv1" ⟨none, none⟩
          ⟨some "c1", some "10", some "paid"⟩ true).outcome
        = .ok ⟨none, some "Database Error: Failed to Update Invoice."⟩
      ∧ revalidations (Strict.updateInvoice "inv1" ⟨none, none⟩
          ⟨some "c1", some "10", some "paid"⟩ true).trace = []) :=
  have h : strictSafeParse ⟨some "c1", some "10", some "paid"⟩
      = .ok ⟨"c1", 10, .paid⟩ := by
    simp +decide [strictSafeParse, checkCustomerId, checkAmount, checkStatus,
      jsNumber, jsStrToNumber, parseUnsigned, digitsToNat]
  ⟨h, success_orders_sql_revalidate_redirect
    ⟨some "c1", some "10", some "paid"⟩ ⟨"c1", 10, .paid⟩ ⟨none, none⟩
    "2026-10-11T08:30:00.000Z" "inv1" h⟩

/-- C5, counterexample: the claim says the input (customerId "", amount "0",
status "paid") yields validation errors on both customerId and amount, but
the empty string passes `z.string()`, so the returned errors mapping carries
no customerId entry: only the amount fails. -/
theorem empty_customerId_passes_validation_counterexample :
    (Strict.createInvoice ⟨none, none⟩ ⟨some "", some "0", some "paid"⟩ false
      "2026-10-11T00:00:00.000Z").outcome
      = .ok ⟨some ⟨none, some ["Please enter an amount greater than $0."], none⟩,
          some "Missing fields. Failed to create invoice."⟩ := by
  decide

/-- C5, amended: a customerId that is missing (null, not a string) is a
validation failure reported with the message "Please select a customer.",
with no SQL sent; the empty string, however, passes the strict validator,
so the input (customerId "", amount "0", status "paid") yields a validation
error on the amount field only, again with no SQL sent. -/
theorem missing_customerId_reports_select_customer (fd : RawForm)
    (prev : State) (now : String) (dbF : Bool) (h : fd.customerId = none) :
    returnedCustomerIdErrors (Strict.createInvoice prev fd dbF now)
      = some ["Please select a customer."]
    ∧ sqlSent (Strict.createInvoice prev fd dbF now).trace = []
    ∧ (Strict.createInvoice ⟨none, none⟩ ⟨some "", some "0", some "paid"⟩
        false "2026-10-11T00:00:00.000Z").outcome
      = .ok ⟨some ⟨none, some ["Please enter an amount greater than $0."], none⟩,
          some "Missing fields. Failed to create invoice."⟩
    ∧ sqlSent (Strict.createInvoice ⟨none, none⟩
        ⟨some "", some "0", some "paid"⟩ false
        "2026-10-11T00:00:00.000Z").trace = [] := by
  refine ⟨?_, ?_, by decide, by decide⟩ <;>
    cases hA : checkAmount fd.amount <;> cases hS : checkStatus fd.status <;>
      simp [Strict.createInvoice, strictSafeParse, h, checkCustomerId,
        hA, hS, errOf, returnedCustomerIdErrors, sqlSent]

/-- C5, witness: the amended theorem applied to a form whose customerId
entry is absent. -/
theorem missing_customerId_reports_select_customer_witness :
    (RawForm.mk none (some "5") (some "paid")).customerId = none
    ∧ (returnedCustomerIdErrors (Strict.createInvoice ⟨none, none⟩
          ⟨none, some "5", some "paid"⟩ false "2026-10-11T00:00:00.000Z")
        = some ["Please select a customer."]
      ∧ sqlSent (Strict.createInvoice ⟨none, none⟩ ⟨none, some "5", some "paid"⟩
          false "2026-10-11T00:00:00.000Z").trace = []
      ∧ (Strict.createInvoice ⟨none, none⟩ ⟨some "", some "0", some "paid"⟩
          false "2026-10-11T00:00:00.000Z").outcome
        = .ok ⟨some ⟨none, some ["Please enter an amount greater than $0."], none⟩,
            some "Missing fields. Failed to create invoice."⟩
      ∧ sqlSent (Strict.createInvoice ⟨none, none⟩
          ⟨some "", some "0", some "paid"⟩ false
          "2026-10-11T00:00:00.000Z").trace = []) :=
  ⟨rfl, missing_customerId_reports_select_customer
    ⟨none, some "5", some "paid"⟩ ⟨none, none⟩ "2026-10-11T00:00:00.000Z"
    false rfl⟩

/-- C6: updateInvoice only ever sends UPDATE statements keyed by its id
argument, setting customer_id, amount and status, and the resulting store
keeps every row with its id and date unchanged — the date column is never
modified, for any input and any database behaviour. -/
theorem updateInvoice_preserves_dates (id : String) (prev : State)
    (fd : RawForm) (dbF : Bool) (st : Store) :
    ((sqlSent (Strict.updateInvoice id prev fd dbF).trace).all
      (isUpdateKeyed id)) = true
    ∧ (finalStore (Strict.updateInvoice id prev fd dbF).trace st).map
        (fun r => (r.id, r.date))
      = st.map (fun r => (r.id, r.date)) := by
  cases h : strictSafeParse fd with
  | error fe => simp [Strict.updateInvoice, h, sqlSent, sqlApplied, finalStore]
  | ok p =>
    cases dbF with
    | true => simp [Strict.updateInvoice, h, sqlSent, sqlApplied, finalStore,
        isUpdateKeyed]
    | false =>
      refine ⟨by simp [Strict.updateInvoice, h, sqlSent, isUpdateKeyed], ?_⟩
      simp only [Strict.updateInvoice, h, finalStore, sqlApplied,
        List.filterMap, applyStmt]
      simp [applyStmt, List.map_map]
      intro r _
      by_cases hr : r.id = id <;> simp [hr]

/-- C7: deleteInvoice sends exactly one DELETE keyed by its id argument for
every id without any validation; on success the revalidation of the listing
route follows the DELETE, and when the DELETE raises the error propagates
uncaught (no result object is returned) with no revalidation performed. -/
theorem deleteInvoice_contract (id : String) :
    sqlSent (deleteInvoice id false).trace = [.deleteRow id]
    ∧ (deleteInvoice id false).trace
      = [.sql (.deleteRow id) true, .revalidate "/dashboard/invoices"]
    ∧ (deleteInvoice id false).outcome = .ok ()
    ∧ sqlSent (deleteInvoice id true).trace = [.deleteRow id]
    ∧ (deleteInvoice id true).outcome = .threw .dbError
    ∧ revalidations (deleteInvoice id true).trace = [] := by
  refine ⟨?_, rfl, rfl, ?_, rfl, rfl⟩ <;> simp [deleteInvoice, sqlSent]

/-- C8, counterexample: the claim says every input with a missing field
makes the permissive handlers throw before any SQL, but a missing amount is
coerced by `Number(null)` to 0, conforms to the permissive schema (which has
no positivity bound), and is persisted: the run redirects and the INSERT
carries amount 0. -/
theorem permissive_missing_amount_persists_counterexample :
    (Permissive.createInvoice ⟨some "c1", none, some "pending"⟩ false
      "2026-10-11T00:00:00.000Z").outcome = .redirected "/dashboard/invoices"
    ∧ sqlSent (Permissive.createInvoice ⟨some "c1", none, some "pending"⟩
        false "2026-10-11T00:00:00.000Z").trace
      = [SqlStmt.insertRow "c1" 0 "pending" "2026-10-11"] := by
  constructor
  · decide
  · simp +decide [Permissive.createInvoice, permissiveParse, jsNumber,
      dateOnly, sqlSent]

/-- C8, amended: for every input the permissive schema rejects (customerId
missing, amount not coercible to a number, or status missing or outside
pending/paid), the permissive createInvoice and updateInvoice throw during
parsing, send no SQL, and return no per-field error report; a missing amount,
however, coerces to 0, conforms, and is persisted rather than rejected. -/
theorem permissive_invalid_input_throws_before_sql (fd : RawForm)
    (now id : String) (dbF : Bool) (h : permissiveParse fd = .error ()) :
    (Permissive.createInvoice fd dbF now).outcome = .threw .parseFailure
    ∧ (Permissive.createInvoice fd dbF now).trace = []
    ∧ (Permissive.updateInvoice id fd dbF).outcome = .threw .parseFailure
    ∧ (Permissive.updateInvoice id fd dbF).trace = []
    ∧ (Permissive.createInvoice ⟨some "c1", none, some "pending"⟩ false
        "2026-10-11T00:00:00.000Z").outcome
      = .redirected "/dashboard/invoices" := by
  refine ⟨?_, ?_, ?_, ?_, by decide⟩ <;>
    simp [Permissive.createInvoice, Permissive.updateInvoice, h]

/-- C8, witness: the amended theorem applied to a form with no customerId
entry, which the permissive schema rejects. -/
theorem permissive_invalid_input_throws_before_sql_witness :
    permissiveParse ⟨none, some "1", some "pending"⟩ = .error ()
    ∧ ((Permissive.createInvoice ⟨none, some "1", some "pending"⟩ false
          "2026-10-11T00:00:00.000Z").outcome = .threw .parseFailure
      ∧ (Permissive.createInvoice ⟨none, some "1", some "pending"⟩ false
          "2026-10-11T00:00:00.000Z").trace = []
      ∧ (Permissive.updateInvoice "inv1" ⟨none, some "1", some "pending"⟩
          false).outcome = .threw .parseFailure
      ∧ (Permissive.updateInvoice "inv1" ⟨none, some "1", some "pending"⟩
          false).trace = []
      ∧ (Permissive.createInvoice ⟨some "c1", none, some "pending"⟩ false
          "2026-10-11T00:00:00.000Z").outcome
        = .redirected "/dashboard/invoices") :=
  ⟨rfl, permissive_invalid_input_throws_before_sql
    ⟨none, some "1", some "pending"⟩ "2026-10-11T00:00:00.000Z" "inv1"
    false rfl⟩

/-- C9: the strict createInvoice and updateInvoice never read their
prevState argument: two runs with different prior states but the same form
data, database behaviour and clock produce identical outcomes and identical
effect traces. -/
theorem handlers_ignore_prevState (p1 p2 : State) (fd : RawForm)
    (dbF : Bool) (now id : String) :
    Strict.createInvoice p1 fd dbF now = Strict.createInvoice p2 fd dbF now
    ∧ Strict.updateInvoice id p1 fd dbF = Strict.updateInvoice id p2 fd dbF :=
  ⟨rfl, rfl⟩

/-- C10: when its DELETE succeeds, deleteInvoice revalidates the listing
route exactly once and never redirects; when no row of the store matches the
id, the store is unchanged and the revalidation still occurs. -/
theorem deleteInvoice_single_revalidation_no_redirect (id : String)
    (st : Store) (h : st.all (fun r => r.id != id) = true) :
    revalidations (deleteInvoice id false).trace = ["/dashboard/invoices"]
    ∧ (deleteInvoice id false).outcome = .ok ()
    ∧ finalStore (deleteInvoice id false).trace st = st := by
  refine ⟨rfl, rfl, ?_⟩
  simp only [deleteInvoice, finalStore, sqlApplied]
  simp [applyStmt, List.filter_eq_self]
  intro r hr
  have := List.all_eq_true.mp h r hr
  simpa using this

/-- C10, witness: the theorem applied to the id "x" and a one-row store
whose row has a different id. -/
theorem deleteInvoice_single_revalidation_no_redirect_witness :
    ([Row.mk "a" "c1" 5 "pending" "2026-01-01"].all (fun r => r.id != "x"))
      = true
    ∧ (revalidations (deleteInvoice "x" false).trace = ["/dashboard/invoices"]
      ∧ (deleteInvoice "x" false).outcome = .ok ()
      ∧ finalStore (deleteInvoice "x" false).trace
          [Row.mk "a" "c1" 5 "pending" "2026-01-01"]
        = [Row.mk "a" "c1" 5 "pending" "2026-01-01"]) :=
  ⟨by decide, deleteInvoice_single_revalidation_no_redirect "x"
    [Row.mk "a" "c1" 5 "pending" "2026-01-01"] (by decide)⟩
